import Mathlib

/-!
Shallow embedding of `loraE22.py` (class `ebyteE22`), the MicroPython driver
for EBYTE E22 LoRa modules.  Python's mutable `self.config` dictionary is
modelled by the structure `Config`; the class-level lookup dictionaries
become functions into `Option`, where `none` models a missing key
(`dict.get` returning `None`).  Bit-string formatting such as
`'{0:08b}'.format(v)` followed by slicing and `int(bits, 2)` is modelled by
arithmetic shift/mask operations (`bitsSlice`), which agree with the Python
code for byte values below 256.
-/

namespace LoraE22

/-- Python mutable dictionary `self.config` of class `ebyteE22`.
`baudrate`, `parity` and `datarate` are `Option`s because `decodeConfig`
stores the result of `dict.get`, which can be `None`; `frequency` is absent
until `calcFrequency` first runs, and `subpckt` is absent until
`decodeConfig` first runs. -/
structure Config where
  model : String
  port : String
  baudrate : Option Nat
  parity : Option String
  datarate : Option String
  address : Nat
  netid : Nat
  channel : Nat
  amb_noise : Nat
  rssi : Nat
  transmode : Nat
  repeater : Nat
  lbt : Nat
  worctrl : Nat
  wutime : Nat
  txpower : Nat
  frequency : Option ℚ
  subpckt : Option Nat
  deriving DecidableEq, Repr

/-- class dictionary `PORT = \x7b 'U0':0, 'U1':1, 'U2':2, 'U3':3 \x7d`. -/
def PORT : String → Option Nat
  | "U0" => some 0
  | "U1" => some 1
  | "U2" => some 2
  | "U3" => some 3
  | _ => none

/-- class dictionary `PARSTR`: parity string to the 2-bit pattern
('8N1'↦'00', '8O1'↦'01', '8E1'↦'10'), read as a number. -/
def PARSTR : String → Option Nat
  | "8N1" => some 0
  | "8O1" => some 1
  | "8E1" => some 2
  | _ => none

/-- class dictionary `PARINV`, the inverse of `PARSTR`; the 2-bit pattern
'11' (value 3) has no entry, so `PARINV.get` yields `None` there. -/
def PARINV : Nat → Option String
  | 0 => some "8N1"
  | 1 => some "8O1"
  | 2 => some "8E1"
  | _ => none

/-- class dictionary `BAUDRATE`: UART baudrate to its 3-bit pattern. -/
def BAUDRATE : Nat → Option Nat
  | 1200 => some 0
  | 2400 => some 1
  | 4800 => some 2
  | 9600 => some 3
  | 19200 => some 4
  | 38400 => some 5
  | 57600 => some 6
  | 115200 => some 7
  | _ => none

/-- class dictionary `BAUDRINV`, the inverse of `BAUDRATE`; total on the
eight 3-bit patterns 0..7. -/
def BAUDRINV : Nat → Option Nat
  | 0 => some 1200
  | 1 => some 2400
  | 2 => some 4800
  | 3 => some 9600
  | 4 => some 19200
  | 5 => some 38400
  | 6 => some 57600
  | 7 => some 115200
  | _ => none

/-- class dictionary `DATARATE`: LoRa air data rate to its 3-bit pattern. -/
def DATARATE : String → Option Nat
  | "0.3k" => some 0
  | "1.2k" => some 1
  | "2.4k" => some 2
  | "4.8k" => some 3
  | "9.6k" => some 4
  | "19.2k" => some 5
  | "38.4k" => some 6
  | "62.5k" => some 7
  | _ => none

/-- class dictionary `DATARINV`, the inverse of `DATARATE`; total on the
eight 3-bit patterns 0..7. -/
def DATARINV : Nat → Option String
  | 0 => some "0.3k"
  | 1 => some "1.2k"
  | 2 => some "2.4k"
  | 3 => some "4.8k"
  | 4 => some "9.6k"
  | 5 => some "19.2k"
  | 6 => some "38.4k"
  | 7 => some "62.5k"
  | _ => none

/-- class dictionary `TXPWRINV` (note the source's '19dBm' typo for what
should be '10dBm'). -/
def TXPWRINV : String → Option Nat
  | "22dBm" => some 0
  | "17dBm" => some 1
  | "13dBm" => some 2
  | "19dBm" => some 3
  | _ => none

/-- value of the slice `'{0:08b}'.format(v)[i:j]` read back as a binary
number: the bits of the byte `v` from position `i` (inclusive, MSB first)
to `j` (exclusive).  Agrees with the Python string slicing for `v < 256`. -/
def bitsSlice (v i j : Nat) : Nat :=
  v / 2 ^ (8 - j) % 2 ^ (j - i)

/-- method `calcChecksum`: Python computes `-(sum(ord(c) for c in payload)
% 256) & 0xFF`, which for a nonnegative sum `s` equals
`(256 - s % 256) % 256`.  The `'%2X'` hex rendering is parsed back with
`int(·, 16)` at every use site, so the embedding keeps the numeric value;
the payload is the list of character codes. -/
def calcChecksum (payload : List Nat) : Nat :=
  (256 - payload.sum % 256) % 256

/-- method `calcFrequency`: `self.config['frequency'] = self.minfreq +
self.config['channel']`.  `minfreq` is the instance field set to 850.125
in `__init__`. -/
def minfreq : ℚ := 850.125

/-- method `calcFrequency` as a state transformer on the config dict. -/
def calcFrequency (cfg : Config) : Config :=
  { cfg with frequency := some (minfreq + cfg.channel) }

/-- method `__init__`: builds `self.config` from the constructor arguments
(the unlisted keys get their hard-coded defaults) and ends by calling
`self.calcFrequency()`.  `txpower` is `TXPWRINV.get(TXpower, 0)`. -/
def initConfig (Model Port : String) (Baudrate : Nat) (Parity AirDataRate : String)
    (Address Netid Channel transmode RSSIflag : Nat) (TXpower : String) : Config :=
  calcFrequency
    { model := Model
      port := Port
      baudrate := some Baudrate
      parity := some Parity
      datarate := some AirDataRate
      address := Address
      netid := Netid
      channel := Channel
      amb_noise := 0
      rssi := RSSIflag
      transmode := transmode
      repeater := 0
      lbt := 0
      worctrl := 0
      wutime := 3
      txpower := (TXPWRINV TXpower).getD 0
      frequency := none
      subpckt := none }

/-- method `encodeConfig`: builds the 10-byte register image
`[0xC0, 0x00, 0x07, ADDH, ADDL, NETID, REG0, REG1, REG2, REG3]` from the
config dict.  The bit-string concatenations become shift/add arithmetic:
REG0 = baudrate(3 bits) · parity(2 bits) · datarate(3 bits);
REG1 = sub-packet '00' (hard-coded via `SUBPINV.get('240B')`) ·
ambient-noise bit · '000' · txpower(2 bits);
REG3 = rssi · transmode · repeater · lbt · worctrl · wutime(3 bits).
A failed table lookup makes the Python `'0b' + None` concatenation raise,
and a flag outside \x7b0,1\x7d makes `int('0b…', 2)` raise ValueError;
both are modelled by `none`.  (For `txpower ≥ 4` or `wutime ≥ 8` the
Python format strings would silently widen the field; the arithmetic here
is exact for the in-range values, and every theorem below that evaluates
`encodeConfig` assumes in-range fields.) -/
def encodeConfig (cfg : Config) : Option (List Nat) := do
  let baud ← cfg.baudrate.bind BAUDRATE
  let par ← cfg.parity.bind PARSTR
  let dr ← cfg.datarate.bind DATARATE
  if cfg.amb_noise ≥ 2 ∨ cfg.rssi ≥ 2 ∨ cfg.transmode ≥ 2 ∨ cfg.repeater ≥ 2 ∨
      cfg.lbt ≥ 2 ∨ cfg.worctrl ≥ 2 then
    none
  else
    some [0xC0, 0x00, 0x07,
      cfg.address / 256,
      cfg.address % 256,
      cfg.netid,
      baud * 32 + par * 8 + dr,
      0 * 64 + cfg.amb_noise * 32 + cfg.txpower,
      cfg.channel,
      cfg.rssi * 128 + cfg.transmode * 64 + cfg.repeater * 32 + cfg.lbt * 16 +
        cfg.worctrl * 8 + cfg.wutime]

/-- method `decodeConfig`: updates the config dict field by field from the
message bytes, in source order.  There is no length check: each indexing
`message[i]` that is out of range raises IndexError, modelled by
`.error` carrying the configuration as mutated so far (Python mutates
`self.config` in place, so the partial updates survive the exception).
The slices of `'{0:08b}'.format(message[k])` become `bitsSlice` values;
in particular parity is read from bits[4:6] and datarate from bits[5:],
exactly as in the source. -/
def decodeConfig (message : List Nat) (cfg : Config) : Except Config Config :=
  match message.get? 0 with
  | none => .error cfg
  | some _header =>
  match message.get? 3, message.get? 4 with
  | none, _ => .error cfg
  | _, none => .error cfg
  | some b3, some b4 =>
  let cfg := { cfg with address := b3 * 256 + b4 }
  match message.get? 5 with
  | none => .error cfg
  | some b5 =>
  let cfg := { cfg with netid := b5 }
  match message.get? 6 with
  | none => .error cfg
  | some b6 =>
  let cfg := { cfg with
    baudrate := BAUDRINV (bitsSlice b6 0 3)
    parity := PARINV (bitsSlice b6 4 6)
    datarate := DATARINV (bitsSlice b6 5 8) }
  match message.get? 7 with
  | none => .error cfg
  | some b7 =>
  let cfg := { cfg with
    subpckt := some (bitsSlice b7 0 1)
    amb_noise := bitsSlice b7 2 3
    txpower := bitsSlice b7 6 8 }
  match message.get? 8 with
  | none => .error cfg
  | some b8 =>
  let cfg := { cfg with channel := b8 }
  match message.get? 9 with
  | none => .error cfg
  | some b9 =>
  .ok { cfg with
    rssi := bitsSlice b9 0 1
    transmode := bitsSlice b9 1 2
    repeater := bitsSlice b9 2 3
    lbt := bitsSlice b9 3 4
    worctrl := bitsSlice b9 4 5
    wutime := bitsSlice b9 5 8 }

/-- configuration carried by a `decodeConfig` result, whether it finished
(`ok`) or raised part-way through (`error`). -/
def exceptConfig : Except Config Config → Config
  | .ok c => c
  | .error c => c

/-- Boolean success test on `Except`. -/
def exceptIsOk : Except Config Config → Bool
  | .ok _ => true
  | .error _ => false

/-- method `getConfig`: sends the 'getConfig' command and decodes the
response.  The response of `sendCommand` is `bytes` or `None` (modelled by
`Option (List Nat)`); `len(None)` raises TypeError, which the method's
`except` clause converts to "NOK".  A response whose length is not 10
returns "NOK" before `decodeConfig` runs, so the config is untouched;
otherwise the decoded config is installed and "OK" returned. -/
def getConfig (cfg : Config) (resp : Option (List Nat)) : String × Config :=
  match resp with
  | none => ("NOK", cfg)
  | some r =>
    if r.length ≠ 10 then ("NOK", cfg)
    else
      match decodeConfig r cfg with
      | .ok c => ("OK", c)
      | .error c => ("NOK", c)

/-- parameter checks at the top of method `start` (lines 214-223): every
construction parameter that is not a key of its lookup table is silently
replaced by a default, and the channel is clamped to 31.  `int(None)`
raises TypeError when the baudrate is `None`, modelled by `none` (the
surrounding `try` then returns "NOK"); a parity or datarate of `None` is
simply "not in" the table and gets the default. -/
def startChecks (cfg : Config) : Option Config :=
  match cfg.baudrate with
  | none => none
  | some b =>
    some { cfg with
      port := if PORT cfg.port = none then "U1" else cfg.port
      baudrate := if BAUDRATE b = none then some 9600 else some b
      parity := if cfg.parity.bind PARSTR = none then some "8N1" else cfg.parity
      datarate := if cfg.datarate.bind DATARATE = none then some "2.4k" else cfg.datarate
      channel := if cfg.channel > 31 then 31 else cfg.channel }

/-- method `saveConfigToJson` dumps the whole `self.config` dictionary with
`ujson.dump`; this function lists the keys of the written document.  The
keys set in `__init__` are always present; 'frequency' is present exactly
when `calcFrequency` has run (always, after construction) and 'subpckt'
exactly when `decodeConfig` has run. -/
def saveConfigKeys (cfg : Config) : List String :=
  ["model", "port", "baudrate", "parity", "datarate", "address", "netid",
   "channel", "amb_noise", "rssi", "transmode", "repeater", "lbt",
   "worctrl", "wutime", "txpower"]
  ++ (if cfg.frequency.isSome then ["frequency"] else [])
  ++ (if cfg.subpckt.isSome then ["subpckt"] else [])

/-- method `setTransmissionMode`: writes the new mode into the config and
persists it with `setConfig('setConfigPwrDwnSave')` only when it differs
from the current `transmode`.  The Boolean records whether the persist
round-trip was issued. -/
def setTransmissionMode (transmode : Nat) (cfg : Config) : Config × Bool :=
  if transmode ≠ cfg.transmode then
    ({ cfg with transmode := transmode }, true)
  else (cfg, false)

/-- transmission-mode choice made at the top of `sendMessage` and
`recvMessage` (the two branches are textually identical): transparent (0)
iff the target address and channel both equal the local configuration,
else fixed (1). -/
def resolveTransmissionMode (to_address to_channel : Nat) (cfg : Config) : Nat :=
  if to_address = cfg.address ∧ to_channel = cfg.channel then 0 else 1

/-- the mode-selection step of `sendMessage`/`recvMessage` (lines 256-263
and 304-311): branch on the address/channel comparison and call
`setTransmissionMode` with 0 or 1. -/
def modeSelect (to_address to_channel : Nat) (cfg : Config) : Config × Bool :=
  if to_address = cfg.address ∧ to_channel = cfg.channel then
    setTransmissionMode 0 cfg
  else
    setTransmissionMode 1 cfg

/-- character codes of a literal string (`ord` of each character). -/
def codes (s : String) : List Nat :=
  s.toList.map Char.toNat

/-- result of the receive path of `recvMessage`.
`empty` is the `\x7b 'msg':None, 'rssi':None \x7d` return for an absent
payload; `corrupt cs rssi` is the corrupt-message dictionary (checksum
mismatch, JSON never parsed); `parsed text rssi` models reaching
`ujson.loads` on the spliced character codes `text`; `nok` is the "NOK"
sentinel produced when the `try` block raises. -/
inductive RecvResult where
  | empty : RecvResult
  | corrupt (cs : Nat) (rssi : Option Int) : RecvResult
  | parsed (text : List Nat) (rssi : Option Int) : RecvResult
  | nok : RecvResult
  deriving DecidableEq, Repr

/-- RSSI splicing at the end of `recvMessage`: the final character of the
decoded text is replaced by `',"rssi":' + str(rssi) + '\x7d'` (or the
`null` variant when RSSI is disabled), then `ujson.loads` runs. -/
def spliceRssi (msg : List Nat) (rssi : Option Int) : RecvResult :=
  match rssi with
  | some r =>
    .parsed (msg.dropLast ++ codes (",\"rssi\":" ++ toString r ++ "\x7d")) (some r)
  | none =>
    .parsed (msg.dropLast ++ codes ",\"rssi\": null \x7d") none

/-- checksum check and tail of `recvMessage`, after the RSSI byte (if any)
has been stripped: with `useChecksum` the checksum of all decoded
characters must be 0, otherwise the corrupt-message dictionary is returned
with the RSSI attached; on success the checksum byte is dropped and the
RSSI spliced in. -/
def recvDecode (msg : List Nat) (rssi : Option Int) (useChecksum : Bool) : RecvResult :=
  if useChecksum then
    let cs := calcChecksum msg
    if cs ≠ 0 then .corrupt cs rssi
    else spliceRssi msg.dropLast rssi
  else spliceRssi msg rssi

/-- method `recvMessage` from the `serdev.read()` result onwards (the mode
selection at its top is `modeSelect`).  `input` is the value read from the
UART (`None` when nothing arrived).  When RSSI output is enabled
(`if self.config['rssi']:`), the last byte is taken as
`rssi = -(256 - js_payload[-1])` and stripped; indexing an empty payload
raises IndexError, caught by the method's `except` clause into "NOK". -/
def recvMessage (cfg : Config) (input : Option (List Nat)) (useChecksum : Bool) :
    RecvResult :=
  match input with
  | none => .empty
  | some js_payload =>
    if cfg.rssi ≠ 0 then
      match js_payload.getLast? with
      | none => .nok
      | some b => recvDecode js_payload.dropLast (some ((b : Int) - 256)) useChecksum
    else
      recvDecode js_payload none useChecksum

/-- polling loop of `waitForDeviceIdle`, indexed by the remaining budget
`count` and the number of 10 ms sleeps already performed.  `aux i` is the
AUX-line reading at the i-th poll (True = idle).  Returns the number of
sleeps performed and whether the TIMEOUT diagnostic was printed; in either
case the method just returns and the caller proceeds. -/
def waitLoop (aux : Nat → Bool) : Nat → Nat → Nat × Bool
  | count, i =>
    if aux i then (i, false)
    else
      match count with
      | 0 => (i, true)
      | c + 1 => waitLoop aux c (i + 1)

/-- method `waitForDeviceIdle`: budget `count = timeout // 10`, one 10 ms
sleep per iteration. -/
def waitForDeviceIdle (aux : Nat → Bool) (timeout : Nat) : Nat × Bool :=
  waitLoop aux (timeout / 10) 0

/-- state of the `self.serdev` attribute: still `None` (never started),
holding a live UART instance, or deleted by `del self.serdev`. -/
inductive SerdevState where
  | noDevice : SerdevState
  | active : SerdevState
  | deletedAttr : SerdevState
  deriving DecidableEq, Repr

/-- method `stop`: if `self.serdev != None` the stream is deinitialized and
the attribute deleted, then "OK"; when the attribute has been deleted, the
very access `self.serdev` raises AttributeError, which the `except` clause
converts to "NOK"; when `serdev` is still `None` the guard is false and
"OK" is returned without touching anything. -/
def stop : SerdevState → String × SerdevState
  | .active => ("OK", .deletedAttr)
  | .noDevice => ("OK", .noDevice)
  | .deletedAttr => ("NOK", .deletedAttr)

/-- repeated calls to `stop` on a started driver: call 0 happens in state
`active`, call n+1 in the state left by call n. -/
def stopSeq : Nat → String × SerdevState
  | 0 => stop .active
  | n + 1 => stop (stopSeq n).2

/-- configuration built with the constructor's default arguments. -/
def exampleCfg : Config :=
  initConfig "900T22D" "U1" 9600 "8N1" "2.4k" 0x0000 0x00 0x06 0 0 "22dBm"

/-- configuration with the default arguments except air data rate 9.6k. -/
def cfg96k : Config :=
  initConfig "900T22D" "U1" 9600 "8N1" "9.6k" 0x0000 0x00 0x06 0 0 "22dBm"

/-- configuration constructed with channel 40 (out of the 0..31 range). -/
def cfgCh40 : Config :=
  initConfig "900T22D" "U1" 9600 "8N1" "2.4k" 0x0000 0x00 40 0 0 "22dBm"

lemma waitLoop_fst_le (aux : Nat → Bool) :
    ∀ count i, (waitLoop aux count i).1 ≤ i + count := by
  intro count
  induction count with
  | zero =>
    intro i
    unfold waitLoop
    split <;> simp
  | succ c ih =>
    intro i
    unfold waitLoop
    split
    · simp
    · exact le_trans (ih (i + 1)) (by omega)

lemma waitLoop_never_idle (aux : Nat → Bool) (h : ∀ i, aux i = false) :
    ∀ count i, waitLoop aux count i = (i + count, true) := by
  intro count
  induction count with
  | zero =>
    intro i
    unfold waitLoop
    simp [h i]
  | succ c ih =>
    intro i
    unfold waitLoop
    rw [h i]
    simp only [Bool.false_eq_true, if_false]
    rw [ih (i + 1)]
    congr 1
    omega

/-- C2: appending the checksum byte `calcChecksum s` to a character
sequence `s` makes the sum of all character codes congruent to 0 modulo
256, the checksum value being `(-(sum mod 256)) mod 256`. -/
theorem calcChecksum_cancels (payload : List Nat) :
    (payload ++ [calcChecksum payload]).sum % 256 = 0 ∧
    (calcChecksum payload : Int) = (-((payload.sum : Int) % 256)) % 256 := by
  unfold calcChecksum
  constructor
  · rw [List.sum_append]
    simp only [List.sum_cons, List.sum_nil]
    omega
  · omega

lemma setTransmissionMode_spec (m : Nat) (cfg : Config) :
    (setTransmissionMode m cfg).1.transmode = m ∧
    ((setTransmissionMode m cfg).2 = true ↔ m ≠ cfg.transmode) := by
  unfold setTransmissionMode
  by_cases h : m ≠ cfg.transmode
  · simp [h]
  · push_neg at h
    simp [h]

lemma modeSelect_eq (to_address to_channel : Nat) (cfg : Config) :
    modeSelect to_address to_channel cfg =
      setTransmissionMode (resolveTransmissionMode to_address to_channel cfg) cfg := by
  unfold modeSelect resolveTransmissionMode
  split <;> rfl

/-- C5: `sendMessage`/`recvMessage` select transparent mode (0) iff the
target address and channel both equal the local configuration, otherwise
fixed mode (1); the mode is persisted through `setTransmissionMode`
exactly when it differs from the current `transmode`, and the resulting
configuration carries the selected mode. -/
theorem transmission_mode_resolution (to_address to_channel : Nat) (cfg : Config) :
    (resolveTransmissionMode to_address to_channel cfg = 0 ↔
      to_address = cfg.address ∧ to_channel = cfg.channel) ∧
    modeSelect to_address to_channel cfg =
      setTransmissionMode (resolveTransmissionMode to_address to_channel cfg) cfg ∧
    (modeSelect to_address to_channel cfg).1.transmode =
      resolveTransmissionMode to_address to_channel cfg ∧
    ((modeSelect to_address to_channel cfg).2 = true ↔
      resolveTransmissionMode to_address to_channel cfg ≠ cfg.transmode) := by
  refine ⟨?_, modeSelect_eq to_address to_channel cfg, ?_, ?_⟩
  · unfold resolveTransmissionMode
    split
    · simp [*]
    · simp [*]
  · rw [modeSelect_eq]
    exact (setTransmissionMode_spec _ cfg).1
  · rw [modeSelect_eq]
    exact (setTransmissionMode_spec _ cfg).2

/-- C8: `waitForDeviceIdle` performs at most `timeout // 10` polling
iterations (10 ms sleeps); if the AUX line never reads idle, the loop
stops after exactly `timeout // 10` sleeps with the TIMEOUT diagnostic
and the caller proceeds. -/
theorem waitForDeviceIdle_bounded (aux : Nat → Bool) (timeout : Nat) :
    (waitForDeviceIdle aux timeout).1 ≤ timeout / 10 ∧
    ((∀ i, aux i = false) →
      waitForDeviceIdle aux timeout = (timeout / 10, true)) := by
  constructor
  · have := waitLoop_fst_le aux (timeout / 10) 0
    unfold waitForDeviceIdle
    omega
  · intro h
    unfold waitForDeviceIdle
    rw [waitLoop_never_idle aux h (timeout / 10) 0]
    simp

/-- witness for C8 at `aux` constantly busy and the default 200 ms
timeout: at most 20 iterations, and exactly 20 with a timeout. -/
theorem waitForDeviceIdle_bounded_witness :
    (waitForDeviceIdle (fun _ => false) 200).1 ≤ 200 / 10 ∧
    waitForDeviceIdle (fun _ => false) 200 = (200 / 10, true) :=
  ⟨(waitForDeviceIdle_bounded (fun _ => false) 200).1,
   (waitForDeviceIdle_bounded (fun _ => false) 200).2 (fun _ => rfl)⟩

/-- C10: `stop` is not idempotent: on a started driver the first call
returns "OK" and deletes the `serdev` attribute, and every subsequent
call returns "NOK" (the AttributeError is caught, never raised). -/
theorem stop_not_idempotent :
    stopSeq 0 = ("OK", SerdevState.deletedAttr) ∧
    ∀ n, stopSeq (n + 1) = ("NOK", SerdevState.deletedAttr) := by
  constructor
  · rfl
  · intro n
    induction n with
    | zero => rfl
    | succ m ih =>
      show stop (stopSeq (m + 1)).2 = _
      rw [ih]
      rfl

/-- C1: round-trip failure exhibited on the configuration with parity
'8N1' and air data rate '9.6k': `encodeConfig` writes parity into REG0
bits 3..4, but `decodeConfig` reads it back from bits 4..5, so the
decoded parity is '8O1' instead of the encoded '8N1'. -/
theorem parity_roundtrip_bug :
    encodeConfig cfg96k = some [0xC0, 0x00, 0x07, 0, 0, 0, 0x64, 0, 6, 3] ∧
    exceptIsOk (decodeConfig [0xC0, 0x00, 0x07, 0, 0, 0, 0x64, 0, 6, 3] cfg96k) = true ∧
    (exceptConfig (decodeConfig [0xC0, 0x00, 0x07, 0, 0, 0, 0x64, 0, 6, 3] cfg96k)).parity
      = some "8O1" ∧
    cfg96k.parity = some "8N1" := by
  refine ⟨?_, rfl, rfl, rfl⟩
  decide

/-- C3 (amended): the response-length guard lives in `getConfig`, which
returns "NOK" with the configuration untouched whenever the response is
absent or not exactly 10 bytes; `decodeConfig` itself performs no length
validation — a 12-byte buffer decodes without error. -/
theorem getConfig_length_guard (cfg : Config) (resp : Option (List Nat))
    (h : ∀ r, resp = some r → r.length ≠ 10) :
    getConfig cfg resp = ("NOK", cfg) ∧
    exceptIsOk
      (decodeConfig [0xC1, 0x00, 0x07, 0x00, 0x00, 0x00, 0x62, 0x00, 0x05, 0x00,
        0x99, 0x99] cfg) = true := by
  constructor
  · match resp with
    | none => rfl
    | some r => simp [getConfig, h r rfl]
  · rfl

/-- witness for C3 at a 3-byte response. -/
theorem getConfig_length_guard_witness :
    getConfig exampleCfg (some [0xC1, 0x00, 0x07]) = ("NOK", exampleCfg) :=
  (getConfig_length_guard exampleCfg (some [0xC1, 0x00, 0x07])
    (by
      intro r hr
      injection hr with hr
      subst hr
      decide)).1

/-- C3 counterexample: `decodeConfig` on a 6-byte buffer raises only after
having already mutated the address and netid fields, so decoding a
wrong-length buffer does not leave the configuration unchanged. -/
theorem decodeConfig_short_buffer_mutates :
    ([0xC1, 0x00, 0x07, 0x12, 0x34, 0x09] : List Nat).length = 6 ∧
    exceptIsOk (decodeConfig [0xC1, 0x00, 0x07, 0x12, 0x34, 0x09] exampleCfg) = false ∧
    (exceptConfig (decodeConfig [0xC1, 0x00, 0x07, 0x12, 0x34, 0x09] exampleCfg)).address
      = 0x1234 ∧
    (exceptConfig (decodeConfig [0xC1, 0x00, 0x07, 0x12, 0x34, 0x09] exampleCfg)).netid
      = 0x09 ∧
    exampleCfg.address = 0x0000 ∧ exampleCfg.netid = 0x00 := by
  refine ⟨rfl, rfl, rfl, rfl, rfl, rfl⟩

/-- C4 (amended): decoding any 10-byte (or longer) register image always
succeeds; baudrate, parity and air data rate go through the inverse
lookup tables (total for baudrate and data rate), while sub-packet size,
ambient noise, tx power and wake-up time are stored as raw bit-field
values with no table lookup; the parity pattern '11' (value 3) has no
table entry and is stored as `none` without any decode error. -/
theorem decodeConfig_ten_byte_total (cfg : Config)
    (b0 b1 b2 b3 b4 b5 b6 b7 b8 b9 : Nat) (rest : List Nat) :
    decodeConfig (b0 :: b1 :: b2 :: b3 :: b4 :: b5 :: b6 :: b7 :: b8 :: b9 :: rest) cfg =
      .ok { cfg with
        address := b3 * 256 + b4
        netid := b5
        baudrate := BAUDRINV (bitsSlice b6 0 3)
        parity := PARINV (bitsSlice b6 4 6)
        datarate := DATARINV (bitsSlice b6 5 8)
        subpckt := some (bitsSlice b7 0 1)
        amb_noise := bitsSlice b7 2 3
        txpower := bitsSlice b7 6 8
        channel := b8
        rssi := bitsSlice b9 0 1
        transmode := bitsSlice b9 1 2
        repeater := bitsSlice b9 2 3
        lbt := bitsSlice b9 3 4
        worctrl := bitsSlice b9 4 5
        wutime := bitsSlice b9 5 8 } ∧
    PARINV 3 = none := ⟨rfl, rfl⟩

/-- C4 counterexample: a 10-byte image whose REG0 bits 4..5 form the
unmapped parity pattern '11' decodes without any error, and the parity is
silently stored as an absent/None value. -/
theorem decodeConfig_parity_none_no_error :
    exceptIsOk (decodeConfig
      [0xC1, 0x00, 0x07, 0x00, 0x00, 0x00, 0x0C, 0x00, 0x05, 0x00] exampleCfg) = true ∧
    (exceptConfig (decodeConfig
      [0xC1, 0x00, 0x07, 0x00, 0x00, 0x00, 0x0C, 0x00, 0x05, 0x00] exampleCfg)).parity
      = none ∧
    bitsSlice 0x0C 4 6 = 3 ∧
    PARINV 3 = none := by
  refine ⟨rfl, rfl, rfl, rfl⟩

/-- C6: with checksum verification requested, a decoded frame whose
character codes (after the RSSI byte, when enabled, has been stripped) do
not sum to 0 modulo 256 yields the corrupt-message result carrying the
decoded RSSI (`last byte - 256`, or none when RSSI is disabled), and the
frame is never handed to the JSON parser. -/
theorem recv_checksum_corrupt (cfg : Config) (p : List Nat)
    (hne : cfg.rssi ≠ 0 → p ≠ [])
    (hbad : (if cfg.rssi ≠ 0 then p.dropLast else p).sum % 256 ≠ 0) :
    recvMessage cfg (some p) true =
      RecvResult.corrupt (calcChecksum (if cfg.rssi ≠ 0 then p.dropLast else p))
        (if cfg.rssi ≠ 0 then some (((p.getLast?.getD 0 : Nat) : Int) - 256) else none) ∧
    ∀ t r, recvMessage cfg (some p) true ≠ RecvResult.parsed t r := by
  have key : ∀ msg : List Nat, msg.sum % 256 ≠ 0 → calcChecksum msg ≠ 0 := by
    intro msg hm
    unfold calcChecksum
    omega
  have main : recvMessage cfg (some p) true =
      RecvResult.corrupt (calcChecksum (if cfg.rssi ≠ 0 then p.dropLast else p))
        (if cfg.rssi ≠ 0 then some (((p.getLast?.getD 0 : Nat) : Int) - 256) else none) := by
    by_cases h : cfg.rssi ≠ 0
    · obtain ⟨b, hb⟩ := Option.isSome_iff_exists.mp (List.getLast?_isSome.mpr (hne h))
      rw [if_pos h] at hbad
      simp only [recvMessage, recvDecode, if_pos h, hb]
      simp [key _ hbad, h, hb]
    · rw [if_neg h] at hbad
      simp only [recvMessage, recvDecode, if_neg h]
      simp [key _ hbad, h]
  refine ⟨main, fun t r h2 => ?_⟩
  rw [main] at h2
  exact RecvResult.noConfusion h2

/-- witness for C6: RSSI disabled, payload "ab" (codes 97, 98, sum 195),
checksum 61 reported as corrupt with no RSSI. -/
theorem recv_checksum_corrupt_witness :
    recvMessage exampleCfg (some [97, 98]) true = RecvResult.corrupt 61 none ∧
    ∀ t r, recvMessage exampleCfg (some [97, 98]) true ≠ RecvResult.parsed t r := by
  have h := recv_checksum_corrupt exampleCfg [97, 98] (by decide) (by decide)
  exact ⟨h.1.trans (by decide), h.2⟩

/-- C7 (amended): the frequency is derived as `minfreq + channel` once, at
construction; it is not recomputed when `start` clamps the channel nor
when `decodeConfig` changes the channel (both leave the stored frequency
untouched), and the persisted configuration document always contains the
frequency key. -/
theorem frequency_derivation_facts :
    (∀ (M P : String) (B : Nat) (Par D : String) (A N Ch t r : Nat) (T : String),
      (initConfig M P B Par D A N Ch t r T).frequency = some (minfreq + Ch)) ∧
    (∀ (msg : List Nat) (cfg : Config),
      (exceptConfig (decodeConfig msg cfg)).frequency = cfg.frequency) ∧
    (∀ cfg : Config, ((startChecks cfg).getD cfg).frequency = cfg.frequency) ∧
    (∀ (M P : String) (B : Nat) (Par D : String) (A N Ch t r : Nat) (T : String),
      "frequency" ∈ saveConfigKeys (initConfig M P B Par D A N Ch t r T)) := by
  refine ⟨fun _ _ _ _ _ _ _ _ _ _ _ => rfl, ?_, ?_, ?_⟩
  · intro msg cfg
    unfold decodeConfig exceptConfig
    cases msg.get? 0 <;> cases msg.get? 3 <;> cases msg.get? 4 <;> cases msg.get? 5 <;>
      cases msg.get? 6 <;> cases msg.get? 7 <;> cases msg.get? 8 <;> cases msg.get? 9 <;>
      rfl
  · intro cfg
    unfold startChecks
    cases cfg.baudrate <;> rfl
  · intro M P B Par D A N Ch t r T
    simp [saveConfigKeys, initConfig, calcFrequency]

/-- C7 counterexample: constructing with channel 40 sets the frequency to
`minfreq + 40`; `start` clamps the channel to 31 but the stored frequency
stays `minfreq + 40 ≠ minfreq + 31`, and the persisted document contains
the frequency key. -/
theorem frequency_stale_and_persisted :
    (startChecks cfgCh40).map (fun c => c.channel) = some 31 ∧
    (startChecks cfgCh40).map (fun c => c.frequency) = some (some (minfreq + (40 : Nat))) ∧
    (minfreq + (40 : Nat) : ℚ) ≠ minfreq + (31 : Nat) ∧
    "frequency" ∈ saveConfigKeys cfgCh40 := by
  refine ⟨rfl, rfl, by norm_num, by simp [saveConfigKeys, cfgCh40, initConfig, calcFrequency]⟩

/-- C9: every non-corrupt frame that reaches the JSON parser has the RSSI
member spliced into the serialized text: the final character of the
decoded (and, with checksum, truncated) text is replaced by the suffix
`',"rssi":' + str(last byte - 256) + closing brace` when RSSI is enabled,
or by the `null` variant when it is disabled, so the parsed mapping
always carries an 'rssi' key and the splice is correct only for payloads
ending in a closing brace. -/
theorem recv_rssi_splice (cfg : Config) (p : List Nat) (useChecksum : Bool)
    (hne : cfg.rssi ≠ 0 → p ≠ [])
    (hok : useChecksum = true →
      (if cfg.rssi ≠ 0 then p.dropLast else p).sum % 256 = 0) :
    recvMessage cfg (some p) useChecksum =
      (let stripped := if cfg.rssi ≠ 0 then p.dropLast else p
       let body := if useChecksum then stripped.dropLast else stripped
       if cfg.rssi ≠ 0 then
         RecvResult.parsed
           (body.dropLast ++
             codes (",\"rssi\":" ++ toString (((p.getLast?.getD 0 : Nat) : Int) - 256)
               ++ "\x7d"))
           (some (((p.getLast?.getD 0 : Nat) : Int) - 256))
       else
         RecvResult.parsed (body.dropLast ++ codes ",\"rssi\": null \x7d") none) := by
  have key : ∀ msg : List Nat, msg.sum % 256 = 0 → calcChecksum msg = 0 := by
    intro msg hm
    unfold calcChecksum
    omega
  by_cases h : cfg.rssi ≠ 0
  · obtain ⟨b, hb⟩ := Option.isSome_iff_exists.mp (List.getLast?_isSome.mpr (hne h))
    simp only [recvMessage, recvDecode, spliceRssi, if_pos h, hb]
    cases useChecksum with
    | false => simp [spliceRssi, h, hb]
    | true =>
      have h0 := hok rfl
      rw [if_pos h] at h0
      simp [key _ h0, spliceRssi, h, hb]
  · simp only [recvMessage, recvDecode, spliceRssi, if_neg h]
    cases useChecksum with
    | false => simp [spliceRssi, h]
    | true =>
      have h0 := hok rfl
      rw [if_neg h] at h0
      simp [key _ h0, spliceRssi, h]

/-- witness for C9: RSSI enabled, payload `\x7b"a":1\x7d` followed by the
RSSI byte 0xF0, no checksum: the parsed text is the payload with its
closing brace replaced by `,"rssi":-16` and a new closing brace. -/
theorem recv_rssi_splice_witness :
    recvMessage { exampleCfg with rssi := 1 }
        (some (codes "\x7b\"a\":1\x7d" ++ [0xF0])) false =
      RecvResult.parsed (codes "\x7b\"a\":1" ++ codes ",\"rssi\":-16\x7d")
        (some (-16)) := by
  have h := recv_rssi_splice { exampleCfg with rssi := 1 }
    (codes "\x7b\"a\":1\x7d" ++ [0xF0]) false (by decide) (by decide)
  exact h.trans (by decide)

end LoraE22
